import Mathlib

/-!
Verification of the track-selection and party-state engine of a shared
music-party server (`backend/server.js`).

The server keeps, per party code, a current track (with its start
timestamp), a list of the last five played track ids, and a map of member
heartbeats.  The selection algorithm `pickNextTrack` scores every catalog
track from the vote store and from similarity to liked tracks, skips
recently played tracks, and falls back to a random pick when there is no
signal.  HTTP handlers read and mutate this state.

The embedding below translates those functions directly.  External inputs
(the vote store rows, the values drawn from `Math.random()`, the wall
clock) are passed as explicit parameters:
- `voteRows` models the rows of the per-track net-score query
  (`track_id`, `sum(up=1/down=-1)`), the result of step 2 of the algorithm;
  the liked-track query of step 3 is the subset of those rows with score
  `> 0`, which `likedTracksOf` derives from the same rows (the two SQL
  queries run back-to-back against the same store).
- `tieBreak i` models `Math.random() < 0.1` as evaluated at loop
  position `i` of the scoring loop.
- `fallbackIdx` models `Math.floor(Math.random() * availableTracks.length)`;
  a uniform draw supplies a uniform index below the pool length.
- `now` models `Date.now()`.

Crashes (a JavaScript `TypeError` from dereferencing `undefined`) are
modelled by `Option`: `pickNextTrack` returns `none` exactly when the
source would throw.
-/

/-- A catalog track as loaded from the `tracks` table:
`select track_id, title, artist, duration from tracks`. -/
structure Track where
  track_id : Int
  title : String
  artist : String
  duration : Int
deriving Repr, DecidableEq

/-- `getCategory(trackId)` from server.js: the genre bucket derived from the
numeric id range. -/
def getCategory (trackId : Int) : String :=
  if 1000 ≤ trackId ∧ trackId < 2000 then "pop"
  else if 2000 ≤ trackId ∧ trackId < 3000 then "chill"
  else if 3000 ≤ trackId ∧ trackId < 4000 then "energy"
  else if 4000 ≤ trackId ∧ trackId < 5000 then "party"
  else if 5000 ≤ trackId ∧ trackId < 6000 then "running"
  else if 6000 ≤ trackId ∧ trackId < 7000 then "relaxing"
  else "other"

/-- The similarity-bonus loop of `pickNextTrack` step 4: for each liked
track, `+2` on a category match and `+3` on an artist match, accumulated
over the list of liked tracks. -/
def similarityBonus (track : Track) (likedTracks : List Track) : Int :=
  likedTracks.foldl
    (fun acc likedTrack =>
      let acc2 := if getCategory track.track_id = getCategory likedTrack.track_id
        then acc + 2 else acc
      if track.artist = likedTrack.artist then acc2 + 3 else acc2)
    0

/-- `voteScore` lookup of step 4a: the net score of the track from the vote
rows, or `0` if nobody voted on it
(`voteResult.rows.find(v => v.track_id === track.track_id)`). -/
def voteScoreOf (voteRows : List (Int × Int)) (trackId : Int) : Int :=
  match voteRows.find? (fun v => v.1 = trackId) with
  | some v => v.2
  | none => 0

/-- `totalScore = voteScore + similarityBonus` for one candidate track. -/
def totalScoreOf (voteRows : List (Int × Int)) (likedTracks : List Track)
    (track : Track) : Int :=
  voteScoreOf voteRows track.track_id + similarityBonus track likedTracks

/-- The scoring loop of `pickNextTrack` step 4, carrying the running best
`(bestTrack, bestScore)` and the loop position (used to index the
tie-break randomness).  A track whose id is in `recentTracks` is skipped
(`continue`); otherwise the incumbent is replaced when
`totalScore > bestScore` or, on an exact tie, when `Math.random() < 0.1`
(modelled by `tieBreak i`). -/
def selectLoopAux (recentTracks : List Int) (voteRows : List (Int × Int))
    (likedTracks : List Track) (tieBreak : Nat → Bool) :
    List Track → Nat → Option Track × Int → Option Track × Int
  | [], _, acc => acc
  | track :: rest, i, (bestTrack, bestScore) =>
      if recentTracks.contains track.track_id then
        selectLoopAux recentTracks voteRows likedTracks tieBreak rest (i + 1)
          (bestTrack, bestScore)
      else
        let totalScore := totalScoreOf voteRows likedTracks track
        if bestScore < totalScore ∨ (totalScore = bestScore ∧ tieBreak i) then
          selectLoopAux recentTracks voteRows likedTracks tieBreak rest (i + 1)
            (some track, totalScore)
        else
          selectLoopAux recentTracks voteRows likedTracks tieBreak rest (i + 1)
            (bestTrack, bestScore)

/-- Step 4 of `pickNextTrack`: run the scoring loop over the whole catalog
starting from `bestTrack = null`, `bestScore = -999999`. -/
def selectLoop (tracks : List Track) (recentTracks : List Int)
    (voteRows : List (Int × Int)) (likedTracks : List Track)
    (tieBreak : Nat → Bool) : Option Track × Int :=
  selectLoopAux recentTracks voteRows likedTracks tieBreak tracks 0
    (none, -999999)

/-- Step 3 of `pickNextTrack`: the liked tracks.  The liked-track query
returns the vote rows with net score `> 0`; the catalog is then filtered to
those ids (`tracks.filter(t => likedTrackIds.includes(t.track_id))`). -/
def likedTracksOf (tracks : List Track) (voteRows : List (Int × Int)) :
    List Track :=
  let likedTrackIds := (voteRows.filter (fun v => 0 < v.2)).map (fun v => v.1)
  tracks.filter (fun t => likedTrackIds.contains t.track_id)

/-- Step 5 of `pickNextTrack`: the random-fallback pool,
`tracks.filter(t => !recentTracks.includes(t.track_id))`. -/
def fallbackPool (tracks : List Track) (recentTracks : List Int) :
    List Track :=
  tracks.filter (fun t => !(recentTracks.contains t.track_id))

/-- Step 6 of `pickNextTrack`: push the winner id onto the recent list and,
when the list now exceeds 5 entries, keep only the last 5
(`recentTracks.slice(-5)`, i.e. drop from the front). -/
def appendRecent (recentTracks : List Int) (trackId : Int) : List Int :=
  let r := recentTracks ++ [trackId]
  if 5 < r.length then r.drop (r.length - 5) else r

/-- The mutable per-party state touched by selection: `currentTracks`
holds the playing track with its `startedAt` stamp, `trackHistory` the
recent track ids. -/
structure PartyState where
  currentTrack : Option (Track × Int)
  recent : List Int
deriving Repr, DecidableEq

/-- `pickNextTrack(partyCode)` from server.js.  Returns the stamped track
`(track, startedAt)` together with the updated party state, or `none` when
the source throws: if the weighted loop kept no candidate or the best score
is exactly `0`, the track is taken from the fallback pool at the random
index, and when that pool is empty the indexing yields `undefined`, so the
subsequent `bestTrack.title` access raises a `TypeError` before any state
is written. -/
def pickNextTrack (tracks : List Track) (st : PartyState)
    (voteRows : List (Int × Int)) (tieBreak : Nat → Bool)
    (fallbackIdx : Nat) (now : Int) : Option ((Track × Int) × PartyState) :=
  let recentTracks := st.recent
  let likedTracks := likedTracksOf tracks voteRows
  let best := selectLoop tracks recentTracks voteRows likedTracks tieBreak
  let chosen :=
    if best.1.isNone ∨ best.2 = 0 then
      (fallbackPool tracks recentTracks).get? fallbackIdx
    else best.1
  match chosen with
  | none => none
  | some bestTrack =>
      let recent2 := appendRecent recentTracks bestTrack.track_id
      some ((bestTrack, now), ⟨some (bestTrack, now), recent2⟩)

/-- The JSON body sent by the `GET /api/party/:partyCode/currentTrack`
handler.  `trackBody t s` is the stored current-track object
`{track_id, title, artist, duration, startedAt}`; `promiseBody` is the
body produced when the handler passes the un-awaited `Promise` returned by
the `async` `pickNextTrack` to `response.json`, which serializes it as the
empty object `{}` (a `Promise` has no enumerable own properties), carrying
none of the track fields. -/
inductive TrackResponse where
  | trackBody : Track → Int → TrackResponse
  | promiseBody : TrackResponse
deriving Repr, DecidableEq

/-- Whether a current-track response body carries the track fields
(`track_id`, `title`, `artist`, `duration`, `startedAt`). -/
def TrackResponse.isTrackBody : TrackResponse → Bool
  | TrackResponse.trackBody _ _ => true
  | TrackResponse.promiseBody => false

/-- `getCurrentTrack(request, response)` from server.js.  When a current
track is stored it is returned as the JSON body and nothing is mutated.
Otherwise the handler — which is not `async` and does not `await` — calls
`pickNextTrack` and hands the resulting `Promise` object straight to
`response.json`, so the body is `promiseBody`; the selection still runs
and its state writes land (after the response), which the returned state
reflects.  If the selection throws (crash, `none`), no state is written. -/
def getCurrentTrack (tracks : List Track) (st : PartyState)
    (voteRows : List (Int × Int)) (tieBreak : Nat → Bool)
    (fallbackIdx : Nat) (now : Int) : TrackResponse × PartyState :=
  match st.currentTrack with
  | some (t, s) => (TrackResponse.trackBody t s, st)
  | none =>
      match pickNextTrack tracks st voteRows tieBreak fallbackIdx now with
      | some (_, st2) => (TrackResponse.promiseBody, st2)
      | none => (TrackResponse.promiseBody, st)

/-- An HTTP response of the vote endpoint: `ok` is `200 {success:true}`,
`err s m` is status `s` with body `{error: m}`. -/
inductive VoteResponse where
  | ok : VoteResponse
  | err : Nat → String → VoteResponse
deriving Repr, DecidableEq

/-- The HTTP status code of a vote-endpoint response (`response.json`
defaults to 200). -/
def VoteResponse.status : VoteResponse → Nat
  | VoteResponse.ok => 200
  | VoteResponse.err s _ => s

/-- JavaScript truthiness of the destructured `sessionId` body field:
`!sessionId` holds when the field is absent (`undefined`) or the empty
string. -/
def jsFalsy : Option String → Bool
  | none => true
  | some s => s = ""

/-- `recordVote(request, response)` from server.js, as a function of the
party state it reads (`currentTracks.get(partyCode)`), the request body
fields, and whether the upsert query succeeds (`storeOk`; a rejected query
is caught and answered with 500).  The body fields are modelled as
`Option String` (`none` = absent). -/
def recordVote (currentTrack : Option (Track × Int)) (vote : Option String)
    (sessionId : Option String) (storeOk : Bool) : VoteResponse :=
  match currentTrack with
  | none => VoteResponse.err 404 "No track playing"
  | some _ =>
      if vote ≠ some "up" ∧ vote ≠ some "down" then
        VoteResponse.err 400 "Vote must be up or down"
      else if jsFalsy sessionId then
        VoteResponse.err 400 "Session ID required"
      else if storeOk then VoteResponse.ok
      else VoteResponse.err 500 "Failed to store vote"

/-- `Map.prototype.set` on the members map: overwrite in place when the
key exists, otherwise append (JavaScript `Map` preserves insertion
order and keeps the position of an overwritten key). -/
def mapSet (members : List (String × Int)) (key : String) (val : Int) :
    List (String × Int) :=
  if members.any (fun m => m.1 = key) then
    members.map (fun m => if m.1 = key then (key, val) else m)
  else members ++ [(key, val)]

/-- `recordHeartbeat(request, response)` from server.js: reject a falsy
`sessionId` with 400, otherwise get-or-create the party's members map and
record `Date.now()` for the session.  Returns the status code and the new
members map entry of `partyMembers` for this party. -/
def recordHeartbeat (members : Option (List (String × Int)))
    (sessionId : Option String) (now : Int) :
    Nat × Option (List (String × Int)) :=
  match sessionId with
  | none => (400, members)
  | some sid =>
      if sid = "" then (400, members)
      else
        let ms := match members with
          | none => []
          | some ms => ms
        (200, some (mapSet ms sid now))

/-- `getMemberCount(request, response)` from server.js: when the party has
no members map answer `{count: 0}`; otherwise walk the entries, counting a
session when `now - lastSeen < 15000` and deleting it from the map
otherwise.  Returns the count and the map as it stands after the sweep. -/
def getMemberCount (members : Option (List (String × Int))) (now : Int) :
    Nat × Option (List (String × Int)) :=
  match members with
  | none => (0, none)
  | some ms =>
      let swept := ms.foldl
        (fun acc m =>
          if now - m.2 < 15000 then (acc.1 + 1, acc.2 ++ [m]) else acc)
        (0, [])
      (swept.1, some swept.2)

/-- One selection step as driven by the scheduler or a lazy-start read:
`runSelections` iterates `pickNextTrack` over a list of per-step external
inputs `(voteRows, tieBreak, fallbackIdx, now)`, starting from a given
party state; a crashing selection leaves the state unchanged. -/
def runSelections (tracks : List Track) :
    List (List (Int × Int) × (Nat → Bool) × Nat × Int) → PartyState →
    PartyState
  | [], st => st
  | (voteRows, tieBreak, fallbackIdx, now) :: rest, st =>
      match pickNextTrack tracks st voteRows tieBreak fallbackIdx now with
      | none => runSelections tracks rest st
      | some (_, st2) => runSelections tracks rest st2

/-! ## Helper lemmas -/

/-- The similarity loop, run from any accumulator, adds `2` per
category-matching liked track and `3` per artist-matching liked track. -/
theorem similarityBonus_foldl (track : Track) (likedTracks : List Track) :
    ∀ a : Int,
      likedTracks.foldl
        (fun acc likedTrack =>
          let acc2 := if getCategory track.track_id
              = getCategory likedTrack.track_id
            then acc + 2 else acc
          if track.artist = likedTrack.artist then acc2 + 3 else acc2)
        a =
      a + 2 * (likedTracks.countP
            (fun l => getCategory track.track_id = getCategory l.track_id) : Int)
        + 3 * (likedTracks.countP (fun l => track.artist = l.artist) : Int) := by
  induction likedTracks with
  | nil => intro a; simp
  | cons l ls ih =>
      intro a
      simp only [List.foldl_cons, List.countP_cons, ih]
      by_cases hc : getCategory track.track_id = getCategory l.track_id <;>
        by_cases ha : track.artist = l.artist <;>
        simp [hc, ha] <;> ring

/-- The scoring loop preserves the invariant that the incumbent best track,
when present, is not in the recent list. -/
theorem selectLoopAux_not_recent (recentTracks : List Int)
    (voteRows : List (Int × Int)) (likedTracks : List Track)
    (tieBreak : Nat → Bool) :
    ∀ (ts : List Track) (i : Nat) (bt : Option Track) (bs : Int) (t : Track),
      (∀ u, bt = some u → recentTracks.contains u.track_id = false) →
      (selectLoopAux recentTracks voteRows likedTracks tieBreak ts i (bt, bs)).1
        = some t →
      recentTracks.contains t.track_id = false := by
  intro ts
  induction ts with
  | nil =>
      intro i bt bs t hinv hres
      exact hinv t hres
  | cons tr rest ih =>
      intro i bt bs t hinv hres
      simp only [selectLoopAux] at hres
      by_cases hrec : recentTracks.contains tr.track_id
      · rw [if_pos hrec] at hres
        exact ih (i + 1) bt bs t hinv hres
      · rw [if_neg hrec] at hres
        by_cases hrep : bs < totalScoreOf voteRows likedTracks tr ∨
            (totalScoreOf voteRows likedTracks tr = bs ∧ tieBreak i)
        · rw [if_pos hrep] at hres
          refine ih (i + 1) (some tr) _ t ?_ hres
          intro u hu
          cases hu
          exact Bool.eq_false_iff.mpr hrec
        · rw [if_neg hrep] at hres
          exact ih (i + 1) bt bs t hinv hres

/-- A track kept by the full scoring pass is never in the recent list. -/
theorem selectLoop_not_recent (tracks : List Track) (recentTracks : List Int)
    (voteRows : List (Int × Int)) (likedTracks : List Track)
    (tieBreak : Nat → Bool) (t : Track)
    (h : (selectLoop tracks recentTracks voteRows likedTracks tieBreak).1
      = some t) :
    recentTracks.contains t.track_id = false := by
  exact selectLoopAux_not_recent recentTracks voteRows likedTracks tieBreak
    tracks 0 none (-999999) t (by intro u hu; cases hu) h

/-- Appending to a recent list of at most 5 entries keeps it at most 5. -/
theorem appendRecent_length_le (r : List Int) (trackId : Int)
    (_h : r.length ≤ 5) : (appendRecent r trackId).length ≤ 5 := by
  simp only [appendRecent]
  split
  · simp only [List.length_drop, List.length_append]
    omega
  · rename_i h2
    simp only [List.length_append] at h2 ⊢
    omega

/-- Appending a sixth entry drops the oldest (front) entry. -/
theorem appendRecent_fifo (r : List Int) (trackId : Int) (h : r.length = 5) :
    appendRecent r trackId = r.drop 1 ++ [trackId] := by
  have hlen : (r ++ [trackId]).length = 6 := by
    simp [List.length_append, h]
  simp only [appendRecent, hlen]
  rw [if_pos (by omega)]
  norm_num
  cases r with
  | nil => simp at h
  | cons a l => simp

/-- A successful selection keeps the recent list at length at most 5. -/
theorem pickNextTrack_recent_le (tracks : List Track) (st : PartyState)
    (voteRows : List (Int × Int)) (tieBreak : Nat → Bool)
    (fallbackIdx : Nat) (now : Int) (x : Track × Int) (st2 : PartyState)
    (hlen : st.recent.length ≤ 5)
    (hpick : pickNextTrack tracks st voteRows tieBreak fallbackIdx now
        = some (x, st2)) : st2.recent.length ≤ 5 := by
  simp only [pickNextTrack] at hpick
  set chosen := if (selectLoop tracks st.recent voteRows
        (likedTracksOf tracks voteRows) tieBreak).1.isNone
      ∨ (selectLoop tracks st.recent voteRows
        (likedTracksOf tracks voteRows) tieBreak).2 = 0 then
      (fallbackPool tracks st.recent).get? fallbackIdx
    else (selectLoop tracks st.recent voteRows
        (likedTracksOf tracks voteRows) tieBreak).1 with hch
  cases hc : chosen with
  | none => rw [hc] at hpick; simp at hpick
  | some t =>
      rw [hc] at hpick
      simp only [Option.some.injEq, Prod.mk.injEq] at hpick
      obtain ⟨h1, h2⟩ := hpick
      rw [← h2]
      exact appendRecent_length_le st.recent t.track_id hlen

/-- Iterated selection preserves the 5-entry bound on the recent list. -/
theorem runSelections_recent_le (tracks : List Track) :
    ∀ (steps : List (List (Int × Int) × (Nat → Bool) × Nat × Int))
      (st : PartyState), st.recent.length ≤ 5 →
      (runSelections tracks steps st).recent.length ≤ 5 := by
  intro steps
  induction steps with
  | nil => intro st h; exact h
  | cons step rest ih =>
      intro st h
      obtain ⟨voteRows, tieBreak, fallbackIdx, now⟩ := step
      simp only [runSelections]
      cases hp : pickNextTrack tracks st voteRows tieBreak fallbackIdx now with
      | none => exact ih st h
      | some r =>
          exact ih r.2 (pickNextTrack_recent_le tracks st voteRows tieBreak
            fallbackIdx now r.1 r.2 h (by rw [hp]))

/-- The member sweep, run from any accumulator, counts the active entries
and keeps exactly them, in order. -/
theorem membersSweep_foldl (now : Int) :
    ∀ (ms : List (String × Int)) (c : Nat) (kept : List (String × Int)),
      ms.foldl
        (fun acc m =>
          if now - m.2 < 15000 then (acc.1 + 1, acc.2 ++ [m]) else acc)
        (c, kept)
      = (c + ms.countP (fun m => now - m.2 < 15000),
         kept ++ ms.filter (fun m => now - m.2 < 15000)) := by
  intro ms
  induction ms with
  | nil => intro c kept; simp
  | cons m rest ih =>
      intro c kept
      simp only [List.foldl_cons, List.countP_cons, List.filter_cons]
      by_cases hm : now - m.2 < 15000
      · rw [if_pos hm, ih]
        simp only [decide_eq_true hm, if_true, Prod.mk.injEq]
        exact ⟨by omega, by simp⟩
      · rw [if_neg hm, ih]
        simp [decide_eq_false hm]

/-! ## Claim theorems -/

/-- Claim C1 (code bug): on a lazy-start read — a party with no current
track — `getCurrentTrack` does not respond with the selected track's
fields.  The handler is not `async` and passes the un-awaited `Promise`
returned by `pickNextTrack` to `response.json`, which serializes it as
`{}`; the body therefore carries none of
`{track_id, title, artist, duration, startedAt}`.  When a current track
exists, the handler does respond with the stored track's fields (third
conjunct). -/
theorem getCurrentTrack_lazyStart_no_fields :
    ((getCurrentTrack
        [⟨1001, "Song A", "X", 180000⟩, ⟨2001, "Song B", "Y", 200000⟩]
        ⟨none, []⟩ [] (fun _ => false) 0 42).1 = TrackResponse.promiseBody)
    ∧ (TrackResponse.isTrackBody
        (getCurrentTrack
          [⟨1001, "Song A", "X", 180000⟩, ⟨2001, "Song B", "Y", 200000⟩]
          ⟨none, []⟩ [] (fun _ => false) 0 42).1 = false)
    ∧ ((getCurrentTrack
        [⟨1001, "Song A", "X", 180000⟩, ⟨2001, "Song B", "Y", 200000⟩]
        ⟨some (⟨1001, "Song A", "X", 180000⟩, 7), []⟩ [] (fun _ => false)
        0 42).1 = TrackResponse.trackBody ⟨1001, "Song A", "X", 180000⟩ 7) :=
  ⟨rfl, rfl, rfl⟩

/-- Claim C2: the `similarityBonus` computed during selection for a track
matching `k` liked tracks on derived category and `m` liked tracks
(possibly overlapping) on artist equals `2k + 3m`. -/
theorem similarityBonus_two_k_three_m (track : Track)
    (likedTracks : List Track) (k m : Nat)
    (hk : likedTracks.countP
        (fun l => getCategory track.track_id = getCategory l.track_id) = k)
    (hm : likedTracks.countP (fun l => track.artist = l.artist) = m) :
    similarityBonus track likedTracks = 2 * k + 3 * m := by
  have h := similarityBonus_foldl track likedTracks 0
  rw [similarityBonus, h, hk, hm]
  ring

/-- Witness for C2 at a concrete input: candidate `⟨2002, ..., "X"⟩`
against one liked track `⟨1001, ..., "X"⟩` matches 0 on category
(chill vs pop) and 1 on artist, so the bonus is `2*0 + 3*1 = 3`. -/
theorem similarityBonus_two_k_three_m_witness :
    similarityBonus ⟨2002, "Song C", "X", 180000⟩
      [⟨1001, "Song A", "X", 200000⟩] = 2 * 0 + 3 * 1 :=
  similarityBonus_two_k_three_m ⟨2002, "Song C", "X", 180000⟩
    [⟨1001, "Song A", "X", 200000⟩] 0 1 (by decide) (by decide)

/-- Claim C3: the random-fallback path is taken exactly when the weighted
loop kept no candidate (`isNone`) or the winning score is exactly `0`.  In
that case the pick with fallback index `i` is element `i` of the pool of
tracks not in the recent history — a uniformly random index therefore
yields a uniformly random non-recent track; otherwise the weighted winner
is returned unchanged, for every index.  The last conjunct identifies the
pool with the set of catalog tracks not in the recent history. -/
theorem pickNextTrack_fallback (tracks : List Track) (st : PartyState)
    (voteRows : List (Int × Int)) (tieBreak : Nat → Bool) (now : Int) :
    (((selectLoop tracks st.recent voteRows
          (likedTracksOf tracks voteRows) tieBreak).1.isNone
        ∨ (selectLoop tracks st.recent voteRows
          (likedTracksOf tracks voteRows) tieBreak).2 = 0) →
      ∀ (i : Nat) (h : i < (fallbackPool tracks st.recent).length),
        pickNextTrack tracks st voteRows tieBreak i now =
          some (((fallbackPool tracks st.recent).get ⟨i, h⟩, now),
            ⟨some ((fallbackPool tracks st.recent).get ⟨i, h⟩, now),
             appendRecent st.recent
               ((fallbackPool tracks st.recent).get ⟨i, h⟩).track_id⟩))
    ∧ (¬((selectLoop tracks st.recent voteRows
          (likedTracksOf tracks voteRows) tieBreak).1.isNone
        ∨ (selectLoop tracks st.recent voteRows
          (likedTracksOf tracks voteRows) tieBreak).2 = 0) →
      ∀ i : Nat, ∃ t : Track,
        (selectLoop tracks st.recent voteRows
          (likedTracksOf tracks voteRows) tieBreak).1 = some t ∧
        pickNextTrack tracks st voteRows tieBreak i now =
          some ((t, now), ⟨some (t, now), appendRecent st.recent t.track_id⟩))
    ∧ (∀ t : Track, t ∈ fallbackPool tracks st.recent ↔
        (t ∈ tracks ∧ st.recent.contains t.track_id = false)) := by
  refine ⟨?_, ?_, ?_⟩
  · intro hcond i h
    simp only [pickNextTrack]
    rw [if_pos hcond, List.get?_eq_get h]
  · intro hcond i
    cases hb : (selectLoop tracks st.recent voteRows
        (likedTracksOf tracks voteRows) tieBreak).1 with
    | none =>
        exact absurd (Or.inl (by rw [hb]; rfl)) hcond
    | some u =>
        refine ⟨u, rfl, ?_⟩
        simp only [pickNextTrack]
        rw [if_neg hcond, hb]
  · intro t
    simp [fallbackPool, List.mem_filter]

/-- Witness for C3 at a concrete input: with no votes every candidate
scores `0`, so the fallback path fires and index `0` picks the first
non-recent track. -/
theorem pickNextTrack_fallback_witness :
    pickNextTrack
      [⟨1001, "Song A", "X", 180000⟩, ⟨2001, "Song B", "Y", 200000⟩]
      ⟨none, []⟩ [] (fun _ => false) 0 42
      = some ((⟨1001, "Song A", "X", 180000⟩, 42),
          ⟨some (⟨1001, "Song A", "X", 180000⟩, 42), [1001]⟩) := by
  have h := (pickNextTrack_fallback
    [⟨1001, "Song A", "X", 180000⟩, ⟨2001, "Song B", "Y", 200000⟩]
    ⟨none, []⟩ [] (fun _ => false) 42).1 (by decide) 0 (by decide)
  exact h.trans (by decide)

/-- Claim C4: a track whose id is in the recent history at selection time
is never chosen by the weighted scoring path of `pickNextTrack` (the path
used when the weighted loop kept a candidate with nonzero best score). -/
theorem pickNextTrack_weighted_not_recent (tracks : List Track)
    (st : PartyState) (voteRows : List (Int × Int)) (tieBreak : Nat → Bool)
    (fallbackIdx : Nat) (now : Int) (tr : Track) (s : Int) (st2 : PartyState)
    (hcond : ¬((selectLoop tracks st.recent voteRows
          (likedTracksOf tracks voteRows) tieBreak).1.isNone
        ∨ (selectLoop tracks st.recent voteRows
          (likedTracksOf tracks voteRows) tieBreak).2 = 0))
    (hpick : pickNextTrack tracks st voteRows tieBreak fallbackIdx now
        = some ((tr, s), st2)) :
    st.recent.contains tr.track_id = false := by
  simp only [pickNextTrack] at hpick
  rw [if_neg hcond] at hpick
  cases hb : (selectLoop tracks st.recent voteRows
      (likedTracksOf tracks voteRows) tieBreak).1 with
  | none => rw [hb] at hpick; simp at hpick
  | some u =>
      rw [hb] at hpick
      simp only [Option.some.injEq, Prod.mk.injEq] at hpick
      obtain ⟨⟨h1, h2⟩, h3⟩ := hpick
      subst h1
      exact selectLoop_not_recent tracks st.recent voteRows
        (likedTracksOf tracks voteRows) tieBreak u hb

/-- Witness for C4 at a concrete input: track 1001 is recent, track 2001
has net score 5 and wins the weighted path, and its id is not in the
recent list. -/
theorem pickNextTrack_weighted_not_recent_witness :
    ([1001] : List Int).contains (2001 : Int) = false :=
  pickNextTrack_weighted_not_recent
    [⟨1001, "Song A", "X", 180000⟩, ⟨2001, "Song B", "Y", 200000⟩]
    ⟨none, [1001]⟩ [(2001, 5)] (fun _ => false) 0 7
    ⟨2001, "Song B", "Y", 200000⟩ 7
    ⟨some (⟨2001, "Song B", "Y", 200000⟩, 7), [1001, 2001]⟩
    (by decide) (by decide)

/-- Claim C5: starting from a fresh party, the recent history has length
at most 5 after any number of selections, and appending a sixth id evicts
the oldest entry (FIFO: the front of the list is dropped, the new id is
appended at the back). -/
theorem recentHistory_bounded_fifo :
    (∀ (tracks : List Track)
        (steps : List (List (Int × Int) × (Nat → Bool) × Nat × Int)),
      (runSelections tracks steps ⟨none, []⟩).recent.length ≤ 5)
    ∧ (∀ (r : List Int) (trackId : Int), r.length = 5 →
        appendRecent r trackId = r.drop 1 ++ [trackId]) :=
  ⟨fun tracks steps =>
      runSelections_recent_le tracks steps ⟨none, []⟩ (by simp),
   appendRecent_fifo⟩

/-- Witness for C5 at a concrete input: appending a sixth id to a full
history drops the oldest, and a concrete run stays within the bound. -/
theorem recentHistory_bounded_fifo_witness :
    appendRecent [1, 2, 3, 4, 5] 6 = [2, 3, 4, 5, 6]
    ∧ (runSelections [⟨1001, "Song A", "X", 180000⟩]
        [([], fun _ => false, 0, 1)] ⟨none, []⟩).recent.length ≤ 5 := by
  constructor
  · exact (recentHistory_bounded_fifo.2 [1, 2, 3, 4, 5] 6 (by decide)).trans
      (by decide)
  · exact recentHistory_bounded_fifo.1 [⟨1001, "Song A", "X", 180000⟩]
      [([], fun _ => false, 0, 1)]

/-- Claim C6 (code bug): when every catalog track is in the recent history
the fallback pool is empty, and `pickNextTrack` does not fail gracefully or
relax the recency filter: `availableTracks[randomIndex]` on the empty array
yields `undefined` and the following `bestTrack.title` access throws a
`TypeError` (modelled by `none`), with no track selected and no state
written. -/
theorem pickNextTrack_empty_pool_crash :
    (pickNextTrack [⟨1001, "Song A", "X", 180000⟩] ⟨none, [1001]⟩ []
        (fun _ => false) 0 0 = none)
    ∧ (fallbackPool [⟨1001, "Song A", "X", 180000⟩] [1001] = []) :=
  ⟨rfl, rfl⟩

/-- Claim C7: the vote endpoint answers 404 when no track is playing, 400
when the vote is not `up`/`down` or the session id is falsy, 500 when the
store write fails, and otherwise `200 {success:true}`. -/
theorem recordVote_statuses :
    ∀ (currentTrack : Option (Track × Int)) (vote sessionId : Option String)
      (storeOk : Bool),
      (currentTrack = none →
        recordVote currentTrack vote sessionId storeOk
          = VoteResponse.err 404 "No track playing")
      ∧ (currentTrack ≠ none → vote ≠ some "up" → vote ≠ some "down" →
        recordVote currentTrack vote sessionId storeOk
          = VoteResponse.err 400 "Vote must be up or down")
      ∧ (currentTrack ≠ none → (vote = some "up" ∨ vote = some "down") →
        jsFalsy sessionId = true →
        recordVote currentTrack vote sessionId storeOk
          = VoteResponse.err 400 "Session ID required")
      ∧ (currentTrack ≠ none → (vote = some "up" ∨ vote = some "down") →
        jsFalsy sessionId = false → storeOk = false →
        recordVote currentTrack vote sessionId storeOk
          = VoteResponse.err 500 "Failed to store vote")
      ∧ (currentTrack ≠ none → (vote = some "up" ∨ vote = some "down") →
        jsFalsy sessionId = false → storeOk = true →
        recordVote currentTrack vote sessionId storeOk = VoteResponse.ok) := by
  intro ct vote sid ok
  refine ⟨?_, ?_, ?_, ?_, ?_⟩
  · intro hc
    subst hc
    rfl
  · intro hne hup hdown
    obtain ⟨p, rfl⟩ := Option.ne_none_iff_exists.mp hne
    simp only [recordVote]
    rw [if_pos ⟨hup, hdown⟩]
  · intro hne hv hf
    obtain ⟨p, rfl⟩ := Option.ne_none_iff_exists.mp hne
    simp only [recordVote]
    rw [if_neg (by tauto), if_pos hf]
  · intro hne hv hf hok
    obtain ⟨p, rfl⟩ := Option.ne_none_iff_exists.mp hne
    simp only [recordVote]
    rw [if_neg (by tauto), if_neg (by simp [hf]), if_neg (by simp [hok])]
  · intro hne hv hf hok
    obtain ⟨p, rfl⟩ := Option.ne_none_iff_exists.mp hne
    simp only [recordVote]
    rw [if_neg (by tauto), if_neg (by simp [hf]), if_pos hok]

/-- Witness for C7 at a concrete input: a valid vote on a playing track
with a working store answers `200 {success:true}`. -/
theorem recordVote_statuses_witness :
    recordVote (some (⟨1001, "Song A", "X", 180000⟩, 0)) (some "up")
      (some "abc") true = VoteResponse.ok :=
  (recordVote_statuses (some (⟨1001, "Song A", "X", 180000⟩, 0)) (some "up")
    (some "abc") true).2.2.2.2 (by simp) (Or.inl rfl) (by decide) rfl

/-- Claim C8: the member-count read counts exactly the sessions whose last
heartbeat is strictly less than 15000 ms old and deletes every stale entry
as a side effect; after heartbeats for sessions A and B at `t = 0`, a query
at `t = 16000` counts 0 and purges both entries, and a subsequent query
still sees the empty underlying map. -/
theorem getMemberCount_sweep :
    (∀ (ms : List (String × Int)) (now : Int),
      getMemberCount (some ms) now
        = (ms.countP (fun m => now - m.2 < 15000),
           some (ms.filter (fun m => now - m.2 < 15000))))
    ∧ (getMemberCount
        (recordHeartbeat (recordHeartbeat none (some "A") 0).2
          (some "B") 0).2 16000 = (0, some []))
    ∧ (getMemberCount (some []) 16000 = (0, some [])) := by
  refine ⟨?_, by decide, by decide⟩
  intro ms now
  simp only [getMemberCount, membersSweep_foldl now ms 0 []]
  simp

/-- Claim C9: while a current track is stored, a `currentTrack` read
returns exactly that stored track and start stamp and leaves the state
unchanged, so two reads without an intervening selection return the
identical track and the identical `startedAt`. -/
theorem getCurrentTrack_idem (tracks : List Track) (st : PartyState)
    (vr1 : List (Int × Int)) (tb1 : Nat → Bool) (i1 : Nat) (n1 : Int)
    (vr2 : List (Int × Int)) (tb2 : Nat → Bool) (i2 : Nat) (n2 : Int)
    (t : Track) (s : Int) (h : st.currentTrack = some (t, s)) :
    getCurrentTrack tracks st vr1 tb1 i1 n1 = (TrackResponse.trackBody t s, st)
    ∧ getCurrentTrack tracks (getCurrentTrack tracks st vr1 tb1 i1 n1).2
        vr2 tb2 i2 n2 = (TrackResponse.trackBody t s, st) := by
  have h1 : getCurrentTrack tracks st vr1 tb1 i1 n1
      = (TrackResponse.trackBody t s, st) := by
    simp only [getCurrentTrack, h]
  exact ⟨h1, by rw [h1]; simp only [getCurrentTrack, h]⟩

/-- Witness for C9 at a concrete input: a party with a stored current track
answers both reads with that track and stamp. -/
theorem getCurrentTrack_idem_witness :
    getCurrentTrack [] ⟨some (⟨1001, "Song A", "X", 180000⟩, 5), []⟩ []
      (fun _ => false) 0 9
      = (TrackResponse.trackBody ⟨1001, "Song A", "X", 180000⟩ 5,
         ⟨some (⟨1001, "Song A", "X", 180000⟩, 5), []⟩) :=
  (getCurrentTrack_idem [] ⟨some (⟨1001, "Song A", "X", 180000⟩, 5), []⟩
    [] (fun _ => false) 0 9 [] (fun _ => false) 0 11
    ⟨1001, "Song A", "X", 180000⟩ 5 rfl).1

/-- Claim C10: in `recordVote` the no-track check precedes input
validation: with no current track the answer is 404 whatever the vote and
session id are, and a 400 answer is only possible while a track is
playing. -/
theorem recordVote_notrack_first :
    (∀ (vote sessionId : Option String) (storeOk : Bool),
      recordVote none vote sessionId storeOk
        = VoteResponse.err 404 "No track playing")
    ∧ (∀ (currentTrack : Option (Track × Int))
        (vote sessionId : Option String) (storeOk : Bool),
        (recordVote currentTrack vote sessionId storeOk).status = 400 →
        currentTrack ≠ none) := by
  constructor
  · intro vote sid ok
    rfl
  · intro ct vote sid ok h400 hc
    subst hc
    simp [recordVote, VoteResponse.status] at h400

/-- Witness for C10 at a concrete input: an invalid vote on a playing
track answers 400, so the party had a current track. -/
theorem recordVote_notrack_first_witness :
    (some (⟨1001, "Song A", "X", 180000⟩, (0 : Int))
      : Option (Track × Int)) ≠ none :=
  recordVote_notrack_first.2 (some (⟨1001, "Song A", "X", 180000⟩, 0))
    none none true (by decide)
